import Mathlib

/-!
Shallow embedding of `python/openlst/openlst_mod.py` (the `openlst_mod`
GNU Radio block: OpenLST encoder/framer and throttled emitter).

Bytes are modelled as `Nat` with explicit range guards where the Python
runtime enforces them (`bytearray`/`bytes` reject entries above 255 and
`int.to_bytes(2, ...)` rejects values at or above 2^16).  The three external
byte transforms (`crc16`, `whiten`, `encode_fec`) live in separate modules
and are therefore parameters of every definition that uses them.
-/

namespace OpenlstMod

/-- Python list repetition `l * n`: `n` concatenated copies of `l`, and the
empty list when `n ≤ 0` (Python semantics for a non-positive count). -/
def pyRepeat (l : List Nat) (n : Int) : List Nat :=
  List.flatten (List.replicate n.toNat l)

/-- The per-instance fields stored by `openlst_mod.__init__` (lines 58-64). -/
structure Config where
  preamble_bytes : Int
  sync_byte1 : Nat
  sync_byte0 : Nat
  sync_words : Int
  flags : Nat
  fec : Bool
  whitening : Bool
deriving DecidableEq

/-- The constructor `openlst_mod.__init__` (lines 41-67): it stores the
parameters unchanged and initialises the empty transmit queue
`self._out_buffer`; it performs no validation of any parameter. -/
def openlst_mod_init (preamble_bytes : Int) (sync_byte1 sync_byte0 : Nat)
    (sync_words : Int) (flags : Nat) (fec whitening : Bool) :
    Config × List (List Nat) :=
  (⟨preamble_bytes, sync_byte1, sync_byte0, sync_words, flags, fec, whitening⟩, [])

/-- Lines 73-75: `[0xaa] * preamble_bytes + [sync_byte1, sync_byte0] * sync_words`. -/
def preamble (cfg : Config) : List Nat :=
  pyRepeat [0xaa] cfg.preamble_bytes ++
    pyRepeat [cfg.sync_byte1, cfg.sync_byte0] cfg.sync_words

/-- Lines 78-84: the pre-checksum content, `bytes([len(raw) + 3, flags])`
followed by `raw[2:]` (seqnum and data) and then `raw[0:2]` (the HWID,
relocated to the end). -/
def contentPre (cfg : Config) (raw : List Nat) : List Nat :=
  [raw.length + 3, cfg.flags] ++ raw.drop 2 ++ raw.take 2

/-- Lines 85-88: the pre-checksum content followed by
`crc16(content).to_bytes(2, byteorder=little)`.  Faithful to the source
whenever `crc16` of the content is below 2^16, which `handle_msg` guards. -/
def dataSegment (crc16 : List Nat → Nat) (cfg : Config) (raw : List Nat) :
    List Nat :=
  contentPre cfg raw ++
    [crc16 (contentPre cfg raw) % 256, crc16 (contentPre cfg raw) / 256]

/-- Lines 90-94: whitening (if enabled) is applied first, then FEC (if
enabled) is applied to the possibly-whitened bytes. -/
def transform (whitening fec : Bool) (whiten encode_fec : List Nat → List Nat)
    (x : List Nat) : List Nat :=
  let x1 := if whitening then whiten x else x
  if fec then encode_fec x1 else x1

/-- Line 97: the complete frame appended to the queue — the preamble and sync
words followed by the transformed data segment. -/
def assembleFrame (crc16 : List Nat → Nat)
    (whiten encode_fec : List Nat → List Nat) (cfg : Config) (raw : List Nat) :
    List Nat :=
  preamble cfg ++
    transform cfg.whitening cfg.fec whiten encode_fec (dataSegment crc16 cfg raw)

/-- `openlst_mod.handle_msg` (lines 69-97): frames `msg` and appends the
frame to the transmit queue `buffer`.  Returns `none` exactly where the
Python runtime raises: an entry of `msg` above 255 (`bytearray(msg)`), a sync
byte above 255 (the preamble `bytearray`), `len(raw) + 3` or `flags` above
255 (`bytes([...])`), or a checksum at or above 2^16 (`to_bytes(2, ...)`).
There is no length check on `msg` anywhere in the function. -/
def handle_msg (crc16 : List Nat → Nat)
    (whiten encode_fec : List Nat → List Nat) (cfg : Config)
    (buffer : List (List Nat)) (msg : List Nat) : Option (List (List Nat)) :=
  if (∀ b ∈ msg, b ≤ 255) ∧ cfg.sync_byte1 ≤ 255 ∧ cfg.sync_byte0 ≤ 255 ∧
      msg.length + 3 ≤ 255 ∧ cfg.flags ≤ 255 ∧
      crc16 (contentPre cfg msg) < 65536 then
    some (buffer ++ [assembleFrame crc16 whiten encode_fec cfg msg])
  else
    none

/-- Observable outcome of a call to `openlst_mod.work` (lines 100-135) that
completes without raising: the new `self._out_buffer`, the queue entries
assigned into `output_items[0]`, the total amount passed to
`self.consume(0, _)`, and the returned value. -/
structure WorkResult where
  buffer : List (List Nat)
  data : List (List Nat)
  consumed : Nat
  ret : Nat
deriving DecidableEq

/-- `openlst_mod.work` (lines 100-135).  With an empty `_out_buffer` it
consumes all input and returns 0 (lines 133-135).  With a non-empty buffer
it computes `num_bytes_out = min(len(self._out_buffer), len(output_items[0]))`
and then runs `output_items[0][:num_bytes_out] = data` (line 120), where
`data` is a list of `num_bytes_out` whole frame entries: NumPy converts the
list to a 2-D `(num_bytes_out, L)` uint8 array (or rejects a ragged list
outright) and assignment broadcasting can never reduce dimensionality, so
the statement raises `ValueError` whenever `num_bytes_out ≥ 1` — modelled
as `none` — before the buffer update (line 124), the consume (line 128) and
the return (line 131) are reached.  Only when `num_bytes_out = 0` (zero
output capacity) does the empty assignment succeed, leaving the queue
unchanged and returning 0.  `ninput` is `len(input_items[0])` and
`noutput` is `len(output_items[0])`. -/
def work (buffer : List (List Nat)) (ninput noutput : Nat) : Option WorkResult :=
  if 0 < buffer.length then
    let num_bytes_out := min buffer.length noutput
    if 0 < num_bytes_out then
      none
    else
      some { buffer := buffer.drop num_bytes_out
             data := buffer.take num_bytes_out
             consumed := if num_bytes_out < noutput
                         then noutput - num_bytes_out else 0
             ret := num_bytes_out }
  else
    some { buffer := buffer, data := [], consumed := ninput, ret := 0 }

/-- The default configuration of the block with whitening and FEC disabled,
as in the spec examples (`preamble_bytes=4`, sync pair `(0xd3, 0x91)`,
`sync_words=2`, `flags=0xC0`). -/
def cfgNoCoding : Config :=
  ⟨4, 0xd3, 0x91, 2, 0xC0, false, false⟩

/-- The example raw packet of the spec: hwid `0x1234`, seqnum `0x0001`,
data `[0xAB, 0xCD]`. -/
def rawExample : List Nat :=
  [0x12, 0x34, 0x00, 0x01, 0xAB, 0xCD]

/-- A 10-byte queued frame used in the emission examples. -/
def frame10 : List Nat :=
  [0, 1, 2, 3, 4, 5, 6, 7, 8, 9]

/-- C1 (counterexample): on the example raw packet the length byte written
by the code is `len(raw) + 3 = 9`, not `3 + (len(raw) - 2) = 7`, so the
pre-checksum segment starts with `0x09`, not `0x07`. -/
theorem C1_counterexample :
    contentPre cfgNoCoding rawExample =
      [0x09, 0xC0, 0x00, 0x01, 0xAB, 0xCD, 0x12, 0x34] ∧
    (contentPre cfgNoCoding rawExample).get? 0 = some 9 ∧
    3 + (rawExample.length - 2) = 7 ∧ (9 : Nat) ≠ 7 := by
  decide

/-- C1 (amended): for every raw packet of length at least 2, the length
field of the data segment equals `len(raw) + 3` (the count of all bytes
that follow the length byte) and the total segment byte length equals
`Length + 1`. -/
theorem C1_length_field (crc16 : List Nat → Nat) (cfg : Config)
    (raw : List Nat) (h : 2 ≤ raw.length) :
    (dataSegment crc16 cfg raw).get? 0 = some (raw.length + 3) ∧
    (dataSegment crc16 cfg raw).length = (raw.length + 3) + 1 := by
  refine ⟨rfl, ?_⟩
  simp [dataSegment, contentPre]
  omega

/-- C1 witness: the amended statement at the spec's example packet. -/
theorem C1_length_field_witness :
    2 ≤ rawExample.length ∧
    ((dataSegment (fun _ => 0) cfgNoCoding rawExample).get? 0 =
        some (rawExample.length + 3) ∧
      (dataSegment (fun _ => 0) cfgNoCoding rawExample).length =
        (rawExample.length + 3) + 1) :=
  ⟨by decide, C1_length_field (fun _ => 0) cfgNoCoding rawExample (by decide)⟩

/-- C2: with one 10-byte frame queued and output capacity 4, the code
computes `num_bytes_out = min(1, 4) = 1` over the number of queued frames
— not bytes — and then raises `ValueError` at the output assignment (a
`(1, 10)` uint8 array cannot broadcast into one output sample slot): no
bytes are produced, the frame stays queued, and nothing is returned.
There is no byte cursor and no byte-level throttling. -/
theorem C2_broadcast_raises :
    work [frame10] 0 4 = none := by
  decide

/-- C3 (counterexample): a raw message of length 0 (shorter than an HWID)
is not rejected — `handle_msg` succeeds and the frame enters the transmit
queue (with `raw[2:]` and `raw[0:2]` both empty). -/
theorem C3_counterexample :
    handle_msg (fun _ => 0) id id cfgNoCoding [] [] =
      some [[0xaa, 0xaa, 0xaa, 0xaa, 0xd3, 0x91, 0xd3, 0x91,
             0x03, 0xC0, 0x00, 0x00]] := by
  decide

/-- C3 (amended): `handle_msg` performs no length validation: a raw message
shorter than 2 bytes is framed like any other (its seqnum/data slice is
empty and the available bytes serve as the relocated HWID) and the frame is
appended to the queue; the previously queued frames are untouched, so the
encoding of other packets is unaffected. -/
theorem C3_no_length_check (crc16 : List Nat → Nat)
    (whiten encode_fec : List Nat → List Nat) (cfg : Config)
    (buffer : List (List Nat)) (msg : List Nat)
    (hshort : msg.length < 2)
    (hmsg : ∀ b ∈ msg, b ≤ 255) (hs1 : cfg.sync_byte1 ≤ 255)
    (hs0 : cfg.sync_byte0 ≤ 255) (hfl : cfg.flags ≤ 255)
    (hcrc : crc16 (contentPre cfg msg) < 65536) :
    handle_msg crc16 whiten encode_fec cfg buffer msg =
      some (buffer ++ [assembleFrame crc16 whiten encode_fec cfg msg]) := by
  unfold handle_msg
  rw [if_pos ⟨hmsg, hs1, hs0, by omega, hfl, hcrc⟩]

/-- C3 witness: the amended statement at a concrete 1-byte message. -/
theorem C3_no_length_check_witness :
    ([0x42] : List Nat).length < 2 ∧
    handle_msg (fun _ => 7) id id cfgNoCoding [[1]] [0x42] =
      some ([[1]] ++ [assembleFrame (fun _ => 7) id id cfgNoCoding [0x42]]) :=
  ⟨by decide,
    C3_no_length_check (fun _ => 7) id id cfgNoCoding [[1]] [0x42]
      (by decide) (by decide) (by decide) (by decide) (by decide) (by decide)⟩

/-- C4: the last two bytes of every data segment whose checksum fits in 16
bits are the checksum of all preceding bytes (the length byte through the
HWID), in little-endian byte order. -/
theorem C4_checksum_placement (crc16 : List Nat → Nat) (cfg : Config)
    (raw : List Nat) (h : crc16 (contentPre cfg raw) < 65536) :
    (dataSegment crc16 cfg raw).take ((dataSegment crc16 cfg raw).length - 2) =
      contentPre cfg raw ∧
    (dataSegment crc16 cfg raw).drop ((dataSegment crc16 cfg raw).length - 2) =
      [crc16 (contentPre cfg raw) % 256,
       crc16 (contentPre cfg raw) / 256 % 256] := by
  have hd : crc16 (contentPre cfg raw) / 256 % 256 =
      crc16 (contentPre cfg raw) / 256 :=
    Nat.mod_eq_of_lt (Nat.div_lt_of_lt_mul (by omega))
  have hlen : (dataSegment crc16 cfg raw).length - 2 =
      (contentPre cfg raw).length := by
    simp [dataSegment]
  constructor
  · rw [hlen, dataSegment, List.take_left]
  · rw [hlen, dataSegment, List.drop_left, hd]

/-- C4 witness: the checksum placement at the spec's example packet and a
concrete 16-bit checksum value. -/
theorem C4_checksum_placement_witness :
    (fun _ => 0x1234 : List Nat → Nat) (contentPre cfgNoCoding rawExample) <
        65536 ∧
    ((dataSegment (fun _ => 0x1234) cfgNoCoding rawExample).take
        ((dataSegment (fun _ => 0x1234) cfgNoCoding rawExample).length - 2) =
      contentPre cfgNoCoding rawExample ∧
    (dataSegment (fun _ => 0x1234) cfgNoCoding rawExample).drop
        ((dataSegment (fun _ => 0x1234) cfgNoCoding rawExample).length - 2) =
      [(fun _ => 0x1234 : List Nat → Nat) (contentPre cfgNoCoding rawExample) % 256,
       (fun _ => 0x1234 : List Nat → Nat) (contentPre cfgNoCoding rawExample) / 256 % 256]) :=
  ⟨by decide,
    C4_checksum_placement (fun _ => 0x1234) cfgNoCoding rawExample (by decide)⟩

/-- C5: with both whitening and FEC enabled the applied transform is
`encode_fec` after `whiten` (never the reverse), and with only one of the
two enabled only that one is applied. -/
theorem C5_transform_order (whiten encode_fec : List Nat → List Nat)
    (x : List Nat) :
    transform true true whiten encode_fec x = encode_fec (whiten x) ∧
    transform true false whiten encode_fec x = whiten x ∧
    transform false true whiten encode_fec x = encode_fec x ∧
    transform false false whiten encode_fec x = x :=
  ⟨rfl, rfl, rfl, rfl⟩

/-- C6: for every raw packet of length at least 2, the two bytes
immediately preceding the checksum of the data segment are the first two
bytes of `raw` (the relocated HWID), the bytes after the flags byte are the
remaining raw bytes unchanged, and the segment starts with the length and
flags bytes (so the HWID is not at the start). -/
theorem C6_hwid_relocation (crc16 : List Nat → Nat) (cfg : Config)
    (raw : List Nat) (h : 2 ≤ raw.length) :
    ((dataSegment crc16 cfg raw).drop
        ((dataSegment crc16 cfg raw).length - 4)).take 2 = raw.take 2 ∧
    ((dataSegment crc16 cfg raw).drop 2).take (raw.length - 2) = raw.drop 2 ∧
    (dataSegment crc16 cfg raw).take 2 = [raw.length + 3, cfg.flags] := by
  obtain ⟨b0, b1, rest, hraw⟩ : ∃ b0 b1 rest, raw = b0 :: b1 :: rest := by
    match raw, h with
    | b0 :: b1 :: rest, _ => exact ⟨b0, b1, rest, rfl⟩
  subst hraw
  refine ⟨?_, ?_, rfl⟩
  · have hseg : dataSegment crc16 cfg (b0 :: b1 :: rest) =
        [(b0 :: b1 :: rest : List Nat).length + 3, cfg.flags] ++ rest ++
          ([b0, b1] ++
            [crc16 (contentPre cfg (b0 :: b1 :: rest)) % 256,
             crc16 (contentPre cfg (b0 :: b1 :: rest)) / 256]) := by
      simp [dataSegment, contentPre]
    have hlen : (dataSegment crc16 cfg (b0 :: b1 :: rest)).length - 4 =
        ([(b0 :: b1 :: rest : List Nat).length + 3, cfg.flags] ++ rest).length := by
      simp [dataSegment, contentPre]
    rw [hlen, hseg, List.drop_left]
    rfl
  · have hseg : dataSegment crc16 cfg (b0 :: b1 :: rest) =
        [(b0 :: b1 :: rest : List Nat).length + 3, cfg.flags] ++
          (rest ++
            [b0, b1, crc16 (contentPre cfg (b0 :: b1 :: rest)) % 256,
             crc16 (contentPre cfg (b0 :: b1 :: rest)) / 256]) := by
      simp [dataSegment, contentPre]
    rw [hseg]
    have : ((([(b0 :: b1 :: rest : List Nat).length + 3, cfg.flags] : List Nat) ++
        (rest ++
          [b0, b1, crc16 (contentPre cfg (b0 :: b1 :: rest)) % 256,
           crc16 (contentPre cfg (b0 :: b1 :: rest)) / 256])).drop 2) =
        rest ++
          [b0, b1, crc16 (contentPre cfg (b0 :: b1 :: rest)) % 256,
           crc16 (contentPre cfg (b0 :: b1 :: rest)) / 256] := rfl
    rw [this]
    simp [List.take_left]

/-- C6 witness: the HWID relocation at the spec's example packet. -/
theorem C6_hwid_relocation_witness :
    2 ≤ rawExample.length ∧
    (((dataSegment (fun _ => 0) cfgNoCoding rawExample).drop
        ((dataSegment (fun _ => 0) cfgNoCoding rawExample).length - 4)).take 2 =
      rawExample.take 2 ∧
    ((dataSegment (fun _ => 0) cfgNoCoding rawExample).drop 2).take
        (rawExample.length - 2) = rawExample.drop 2 ∧
    (dataSegment (fun _ => 0) cfgNoCoding rawExample).take 2 =
      [rawExample.length + 3, cfgNoCoding.flags]) :=
  ⟨by decide,
    C6_hwid_relocation (fun _ => 0) cfgNoCoding rawExample (by decide)⟩

/-- Repetition of a one-element list is `List.replicate`. -/
theorem pyRepeat_singleton (a : Nat) (n : Int) :
    pyRepeat [a] n = List.replicate n.toNat a := by
  unfold pyRepeat
  induction n.toNat with
  | zero => rfl
  | succ k ih => simp only [List.replicate_succ, List.flatten_cons, ih]; rfl

/-- The length of a Python list repetition. -/
theorem pyRepeat_length (l : List Nat) (n : Int) :
    (pyRepeat l n).length = n.toNat * l.length := by
  unfold pyRepeat
  induction n.toNat with
  | zero => simp
  | succ k ih =>
    simp only [List.replicate_succ, List.flatten_cons, List.length_append, ih]
    ring

/-- The preamble occupies exactly `preamble_bytes + 2 * sync_words` bytes
(counts clamped at zero, as Python list repetition does). -/
theorem preamble_length (cfg : Config) :
    (preamble cfg).length =
      cfg.preamble_bytes.toNat + 2 * cfg.sync_words.toNat := by
  unfold preamble
  rw [List.length_append, pyRepeat_length, pyRepeat_length]
  simp only [List.length_cons, List.length_nil]
  ring

/-- C7: the first `preamble_bytes + 2 * sync_words` bytes of every
assembled frame are the `0xAA` preamble copies followed by the repeated
`(sync_byte1, sync_byte0)` pair, for every configuration (in particular
for every setting of the fec/whitening flags) and every pair of
whitening/FEC functions — the prefix is never transformed. -/
theorem C7_preamble_purity (crc16 : List Nat → Nat)
    (whiten encode_fec : List Nat → List Nat) (cfg : Config) (raw : List Nat) :
    (assembleFrame crc16 whiten encode_fec cfg raw).take
        (cfg.preamble_bytes.toNat + 2 * cfg.sync_words.toNat) =
      List.replicate cfg.preamble_bytes.toNat 0xaa ++
        List.flatten
          (List.replicate cfg.sync_words.toNat
            [cfg.sync_byte1, cfg.sync_byte0]) := by
  rw [assembleFrame, List.take_left' (preamble_length cfg)]
  rw [preamble, pyRepeat_singleton]
  rfl

/-- C8: with an empty transmit queue, `work` emits nothing and returns 0
for every requested output capacity, and consumes the entire available
input. -/
theorem C8_idle_queue (ninput noutput : Nat) :
    work [] ninput noutput =
      some { buffer := [], data := [], consumed := ninput, ret := 0 } := rfl

/-- C9 (counterexample): constructing the block with the invalid count
`preamble_bytes = -1` does not fail — the instance is usable and
`handle_msg` still builds and enqueues a frame from it (the negative count
merely yields zero preamble bytes). -/
theorem C9_counterexample :
    (openlst_mod_init (-1) 0xd3 0x91 2 0xC0 false false).2 = [] ∧
    handle_msg (fun _ => 0) id id
        (openlst_mod_init (-1) 0xd3 0x91 2 0xC0 false false).1 []
        [0x12, 0x34, 0x00, 0x01] =
      some [[0xd3, 0x91, 0xd3, 0x91,
             0x07, 0xC0, 0x00, 0x01, 0x12, 0x34, 0x00, 0x00]] := by
  decide

/-- C9 (amended): construction never fails and performs no validation —
`openlst_mod_init` stores every parameter unchanged (negative repetition
counts included) next to an empty queue, and a negative `preamble_bytes`
simply contributes zero preamble bytes to later frames. -/
theorem C9_init_no_validation (pb sw : Int) (b1 b0 fl : Nat) (fc wh : Bool)
    (hpb : pb < 0) :
    openlst_mod_init pb b1 b0 sw fl fc wh =
      (⟨pb, b1, b0, sw, fl, fc, wh⟩, []) ∧
    preamble ⟨pb, b1, b0, sw, fl, fc, wh⟩ = pyRepeat [b1, b0] sw := by
  refine ⟨rfl, ?_⟩
  unfold preamble
  rw [pyRepeat_singleton]
  simp [Int.toNat_of_nonpos hpb.le]

/-- C9 witness: the amended statement at `preamble_bytes = -1`. -/
theorem C9_init_no_validation_witness :
    ((-1 : Int) < 0) ∧
    (openlst_mod_init (-1) 0xd3 0x91 2 0xC0 false false =
        (⟨-1, 0xd3, 0x91, 2, 0xC0, false, false⟩, []) ∧
      preamble ⟨-1, 0xd3, 0x91, 2, 0xC0, false, false⟩ =
        pyRepeat [0xd3, 0x91] 2) :=
  ⟨by decide,
    C9_init_no_validation (-1) 2 0xd3 0x91 0xC0 false false (by decide)⟩

/-- C10 (counterexample): with two queued entries and output capacity 1,
the claim says one whole entry is removed and `work` returns 1; instead
the output assignment raises `ValueError`, so no entry is removed and
nothing is returned. -/
theorem C10_counterexample :
    work [[1], [2, 3]] 0 1 = none := by
  decide

/-- C10 (amended): on every call to `work` with `k` queued entries and
output capacity `c`: if `k > 0` and `c > 0` the call raises `ValueError`
at the output assignment, before the queue update, the consume and the
return — no entry is removed and no value is returned; if `k > 0` and
`c = 0` the queue is left unchanged, nothing is consumed and 0 is
returned; if `k = 0` the queue remains empty, all input is consumed and 0
is returned. -/
theorem C10_work_raises (buffer : List (List Nat)) (ninput noutput : Nat) :
    (0 < buffer.length → 0 < noutput →
      work buffer ninput noutput = none) ∧
    (0 < buffer.length → noutput = 0 →
      work buffer ninput noutput =
        some { buffer := buffer, data := [], consumed := 0, ret := 0 }) ∧
    (buffer.length = 0 →
      work buffer ninput noutput =
        some { buffer := buffer, data := [], consumed := ninput, ret := 0 }) := by
  refine ⟨?_, ?_, ?_⟩
  · intro h1 h2
    unfold work
    rw [if_pos h1, if_pos (by omega : 0 < min buffer.length noutput)]
  · intro h1 h2
    subst h2
    unfold work
    rw [if_pos h1]
    simp
  · intro h
    have hb : buffer = [] := List.length_eq_zero.mp h
    subst hb
    rfl

/-- C10 witness: the amended statement at concrete inputs covering all
three cases. -/
theorem C10_work_raises_witness :
    work [[1], [2, 3]] 7 4 = none ∧
    work [[1], [2, 3]] 7 0 =
      some { buffer := [[1], [2, 3]], data := [], consumed := 0, ret := 0 } ∧
    work ([] : List (List Nat)) 7 5 =
      some { buffer := [], data := [], consumed := 7, ret := 0 } :=
  ⟨(C10_work_raises [[1], [2, 3]] 7 4).1 (by decide) (by decide),
   (C10_work_raises [[1], [2, 3]] 7 0).2.1 (by decide) rfl,
   (C10_work_raises [] 7 5).2.2 rfl⟩

end OpenlstMod
